import Mathlib

/-!
Verification of the Violentproxy engine (`src/Violentproxy/Violentengine.js`).

The source is an event-driven Node.js HTTP proxy.  We embed it shallowly:

* Header mappings (plain JS objects with unique, already-lowercased keys for
  incoming messages) become association lists `List (String × String)`.
* Body bytes are modelled as `String`: the engine only ever concatenates the
  buffered chunks (`Buffer.concat`) and converts them with `toString()`, so a
  chunk is its decoded text and concatenation is string append.
* `zlib.unzip` is external library code; it is passed to the engine as a
  parameter `unzip : String → Except Unit String` (`Except.error` models the
  `err` branch of the Node callback).
* The two caller-replaceable policy hooks (`exports.requestPatchingProvider`,
  `exports.responsePatchingProvider`) are parameters as well.  Both receive
  the header object by reference and may mutate it, so they are modelled as
  functions returning the (possibly mutated) headers alongside their result.
* The asynchronous event wiring is modelled by running the engine against an
  explicit upstream trace: either an `error` on the request object itself
  (e.g. a connect failure — the source registers NO handler for it, so Node
  raises an uncaught exception which the registered `uncaughtException`
  handler re-throws, terminating the process: flag `crashed`), or no response
  at all, or a response object followed by a list of its stream events
  (`data`/`end`/`error`/`aborted`, plus the `aborted` event of the local
  client, whose handler calls `request.abort()`).
* Each `writeHead .. write .. end` sequence performed on the local response is
  recorded as one `ClientWrite`; the list of writes a run produces is the
  observable client-side behaviour.
-/

namespace Violentproxy

/-- Header mapping: association list with JS-object-like unique keys. -/
abbrev Headers := List (String × String)

/-- JS `headers[k]` — first (and, with unique keys, only) binding of `k`. -/
def hget : Headers → String → Option String
  | [], _ => none
  | p :: t, k => if p.1 = k then some p.2 else hget t k

/-- JS `delete headers[k]`. -/
def hdel : Headers → String → Headers
  | [], _ => []
  | p :: t, k => if p.1 = k then hdel t k else p :: hdel t k

/-- JS `headers[k] = v` — replace the binding of `k` by `v`. -/
def hset (h : Headers) (k v : String) : Headers :=
  hdel h k ++ [(k, v)]

/-- `exports.requestResult` — the four request-patching outcomes.
`Deny` and `Redirect` are declared in the source but their switch branches
are empty TODOs that fall through to normal proxying. -/
inductive RequestResult
  | Allow
  | Empty
  | Deny
  | Redirect
deriving DecidableEq, Repr

/-- The local `IncomingMessage`: the engine reads only `url` and `headers`;
`method` and `body` are carried by the Node request object but the source
never reads them (relevant to what gets forwarded upstream). -/
structure ClientRequest where
  url : String
  headers : Headers
  method : String
  body : String
deriving DecidableEq, Repr

/-- The remote `http.IncomingMessage` (`remoteRes`): status, message, headers. -/
structure RemoteResponse where
  statusCode : Nat
  statusMessage : String
  headers : Headers
deriving DecidableEq, Repr

/-- One complete `writeHead(status, reason, headers); write(body)?; end()`
sequence performed on the local `ServerResponse`. -/
structure ClientWrite where
  status : Nat
  reason : String
  headers : Headers
  body : String
deriving DecidableEq, Repr

/-- The upstream `http.ClientRequest` the engine constructs:
`options = url.parse(localReq.url)`, `options.headers = localReq.headers`
(after hook mutation and the `accept-encoding` override), transport chosen by
`options.protocol === "https:"`.  `options` never carries a method, so
`http.request` defaults to `GET`, and `request.end()` is called with no body. -/
structure UpstreamRequest where
  secure : Bool
  url : String
  method : String
  headers : Headers
  body : String
deriving DecidableEq, Repr

/-- JS `String.prototype.startsWith` (case-sensitive). -/
def strStartsWith (s p : String) : Bool :=
  List.isPrefixOf p.toList s.toList

/-- Scheme characters accepted by the legacy `url.parse` of Node
(`/^[a-z0-9.+-]+:/i`). -/
def isSchemeChar (c : Char) : Bool :=
  c.isAlphanum || c == '.' || c == '+' || c == '-'

/-- `url.parse(u).protocol`: a non-empty run of scheme characters terminated
by a colon, lowercased, colon included; `none` (JS `null`) otherwise. -/
def urlParseProtocol (u : String) : Option String :=
  let cs := u.toList
  let sch := cs.takeWhile isSchemeChar
  if sch.isEmpty then none
  else
    match cs.drop sch.length with
    | ':' :: _ => some (String.mk (sch.map Char.toLower ++ [':']))
    | _ => none

/-- The fixed 400 response for a request target not starting with "http". -/
def bad400Write : ClientWrite :=
  { status := 400, reason := "Bad Request",
    headers := [("Content-Type", "text/plain"), ("Server", "Violentproxy Proxy Server")],
    body := "The request that Violentproxy received is not valid because it would cause internal request loop." }

/-- The fixed 200 response for the `Empty` policy outcome (no `write` call,
so the body is empty). -/
def empty200Write : ClientWrite :=
  { status := 200, reason := "OK",
    headers := [("Content-Type", "text/plain"), ("Server", "Violentproxy Proxy Server")],
    body := "" }

/-- The fixed 500 response of the `zlib.unzip` error branch. -/
def parse500Write : ClientWrite :=
  { status := 500, reason := "Data Stream Parse Error",
    headers := [("Content-Type", "text/plain"), ("Server", "Violentproxy Proxy Server")],
    body := "Violentproxy could not complete your request because there is a data stream parsing error." }

/-- The fixed 500 response of the `remoteRes.on("error")` handler. -/
def read500Write : ClientWrite :=
  { status := 500, reason := "Data Stream Read Error",
    headers := [("Content-Type", "text/plain"), ("Server", "Violentproxy Proxy Server")],
    body := "Violentproxy could not complete your request because there is a data stream read error." }

/-- The fixed 502 response of the `remoteRes.on("aborted")` handler. -/
def abort502Write : ClientWrite :=
  { status := 502, reason := "Broken Pipe / Remote Server Disconnected",
    headers := [("Content-Type", "text/plain"), ("Server", "Violentproxy Proxy Server")],
    body := "Violentproxy could not complete your request because remote server closed the connection." }

/-- `finalize(localRes, remoteRes, url, responseText)` (source lines 117-128):
apply the response patching provider (which may mutate the headers), then
force `content-encoding: identity`, delete `content-length`, and write the
upstream status, message, headers and the patched text. -/
def finalize (responsePatchingProvider : Headers → String → String → Headers × String)
    (remoteRes : RemoteResponse) (url : String) (responseText : String) : ClientWrite :=
  let patched := responsePatchingProvider remoteRes.headers url responseText
  let h1 := hset patched.1 "content-encoding" "identity"
  let h2 := hdel h1 "content-length"
  { status := remoteRes.statusCode, reason := remoteRes.statusMessage,
    headers := h2, body := patched.2 }

/-- The decoding decision of the `end` handler (source lines 64-82): if the
`content-encoding` header is exactly `"gzip"` or exactly `"deflate"`, run
`zlib.unzip` on the accumulated bytes; anything else is assumed identity. -/
def decodeBody (unzip : String → Except Unit String) (encoding : Option String)
    (data : String) : Except Unit String :=
  if encoding = some "gzip" ∨ encoding = some "deflate" then unzip data
  else Except.ok data

/-- The `remoteRes.on("end")` handler: concatenate the buffered chunks,
decode, and either emit the fixed 500 parse error or finalize. -/
def onEnd (responsePatchingProvider : Headers → String → String → Headers × String)
    (unzip : String → Except Unit String) (url : String)
    (remoteRes : RemoteResponse) (chunks : List String) : ClientWrite :=
  let data := String.join chunks
  match decodeBody unzip (hget remoteRes.headers "content-encoding") data with
  | Except.error _ => parse500Write
  | Except.ok result => finalize responsePatchingProvider remoteRes url result

/-- Events observable on an established upstream response, interleaved with
the `aborted` event of the local client connection. -/
inductive ResEvent
  | data (chunk : String)
  | endE
  | errorE
  | abortedE
  | clientAborted
deriving DecidableEq, Repr

/-- Mutable per-request state of the response callback: the chunk buffer, the
writes performed so far on the local response, and whether the engine has
called `request.abort()`. -/
structure RunState where
  buf : List String
  writes : List ClientWrite
  reqAborted : Bool
deriving DecidableEq, Repr

/-- One event dispatch: each handler is exactly the one registered in the
source (lines 59-102 and 106); none of them checks whether another terminal
handler already ran. -/
def stepEvent (responsePatchingProvider : Headers → String → String → Headers × String)
    (unzip : String → Except Unit String) (url : String) (remoteRes : RemoteResponse)
    (st : RunState) : ResEvent → RunState
  | ResEvent.data c => { st with buf := st.buf ++ [c] }
  | ResEvent.endE =>
      { st with writes := st.writes ++ [onEnd responsePatchingProvider unzip url remoteRes st.buf] }
  | ResEvent.errorE => { st with writes := st.writes ++ [read500Write] }
  | ResEvent.abortedE => { st with writes := st.writes ++ [abort502Write] }
  | ResEvent.clientAborted => { st with reqAborted := true }

/-- What the upstream side does for one proxied request: an `error` event on
the request object itself (e.g. connect failure — the source registers no
handler for it), no response at all (with or without the client having
disconnected meanwhile), or a response followed by its stream events. -/
inductive UpstreamTrace
  | connectError
  | noResponse (clientDisconnected : Bool)
  | withResponse (r : RemoteResponse) (evs : List ResEvent)
deriving DecidableEq, Repr

/-- Observable outcome of one engine run: the writes that reached the local
response, the upstream request that was dispatched (if any), whether
`request.abort()` was called, and whether an exception escaped to the
process level (where the registered `uncaughtException` handler re-throws,
terminating the process). -/
structure EngineOutput where
  writes : List ClientWrite
  upstreamReq : Option UpstreamRequest
  reqAborted : Bool
  crashed : Bool
deriving DecidableEq, Repr

/-- `engine(localReq, localRes)` (source lines 15-108), run against an
upstream trace.  Control flow translated branch by branch:
1. `!localReq.url.startsWith("http")` → fixed 400 write, stop.
2. call the request patching provider (the hook may mutate the headers),
   then force `accept-encoding: gzip, deflate`;
3. switch: `Empty` → fixed 200 write, stop; `Allow`, `Deny`, `Redirect` all
   fall through (the latter two branches are empty TODOs).  The `default:
   throw` branch is unreachable: `RequestResult` is the enumeration itself.
4. dispatch the upstream request (https transport iff the parsed protocol is
   `"https:"`; no method is set, so `GET`; `request.end()` sends no body) and
   process the trace events with the registered handlers. -/
def engine (requestPatchingProvider : Headers → String → RequestResult × Headers)
    (responsePatchingProvider : Headers → String → String → Headers × String)
    (unzip : String → Except Unit String)
    (req : ClientRequest) (trace : UpstreamTrace) : EngineOutput :=
  if ¬ strStartsWith req.url "http" then
    { writes := [bad400Write], upstreamReq := none, reqAborted := false, crashed := false }
  else
    let patched := requestPatchingProvider req.headers req.url
    let headers1 := hset patched.2 "accept-encoding" "gzip, deflate"
    match patched.1 with
    | RequestResult.Empty =>
        { writes := [empty200Write], upstreamReq := none, reqAborted := false, crashed := false }
    | _ =>
        let upReq : UpstreamRequest :=
          { secure := urlParseProtocol req.url == some "https:", url := req.url,
            method := "GET", headers := headers1, body := "" }
        match trace with
        | UpstreamTrace.connectError =>
            { writes := [], upstreamReq := some upReq, reqAborted := false, crashed := true }
        | UpstreamTrace.noResponse clientDisconnected =>
            { writes := [], upstreamReq := some upReq, reqAborted := clientDisconnected,
              crashed := false }
        | UpstreamTrace.withResponse r evs =>
            let final := evs.foldl (stepEvent responsePatchingProvider unzip req.url r)
              { buf := [], writes := [], reqAborted := false }
            { writes := final.writes, upstreamReq := some upReq,
              reqAborted := final.reqAborted, crashed := false }

/-- Spec-side predicate (§4.2 "absolute URL", RFC 3986 absolute-URI form): a
target is absolute when it begins with a URI scheme, i.e. a non-empty run of
scheme characters terminated by a colon. -/
def specIsAbsoluteURL (s : String) : Bool :=
  let sch := s.toList.takeWhile isSchemeChar
  !sch.isEmpty && (s.toList.drop sch.length).head? == some ':'

/-- The three upstream events whose handlers perform a terminal write. -/
def isTerminalEv : ResEvent → Bool
  | ResEvent.endE => true
  | ResEvent.errorE => true
  | ResEvent.abortedE => true
  | _ => false

/-- Number of terminal upstream events in a response event list. -/
def terminalCount (evs : List ResEvent) : Nat :=
  (evs.filter isTerminalEv).length

/-- Expected number of terminal client writes for one run: one for each
locally rejected request (400 / Empty-200), and otherwise one per terminal
upstream event in the trace. -/
def expectedWrites (requestPatchingProvider : Headers → String → RequestResult × Headers)
    (req : ClientRequest) (trace : UpstreamTrace) : Nat :=
  if ¬ strStartsWith req.url "http" then 1
  else
    match (requestPatchingProvider req.headers req.url).1 with
    | RequestResult.Empty => 1
    | _ =>
      match trace with
      | UpstreamTrace.connectError => 0
      | UpstreamTrace.noResponse _ => 0
      | UpstreamTrace.withResponse _ evs => terminalCount evs

theorem hget_hdel_self (h : Headers) (k : String) : hget (hdel h k) k = none := by
  induction h with
  | nil => rfl
  | cons p t ih => by_cases hp : p.1 = k <;> simp [hdel, hget, hp, ih]

theorem hget_hdel_ne (h : Headers) (k k2 : String) (hne : k ≠ k2) :
    hget (hdel h k) k2 = hget h k2 := by
  induction h with
  | nil => rfl
  | cons p t ih =>
    by_cases hp : p.1 = k
    · have hp2 : ¬ p.1 = k2 := by rw [hp]; exact hne
      simp [hdel, hget, hp, hp2, ih, hne]
    · by_cases hq : p.1 = k2 <;> simp [hdel, hget, hp, hq, ih, hne, Ne.symm hne]

theorem hget_hset_self (h : Headers) (k v : String) : hget (hset h k v) k = some v := by
  unfold hset
  induction h with
  | nil => simp [hget]
  | cons p t ih =>
    by_cases hp : p.1 = k <;> simp [hdel, hget, hp, ih]

theorem hget_hset_ne (h : Headers) (k k2 v : String) (hne : k ≠ k2) :
    hget (hset h k v) k2 = hget h k2 := by
  unfold hset
  induction h with
  | nil => simp [hget, hne]
  | cons p t ih =>
    by_cases hp : p.1 = k
    · have hp2 : ¬ p.1 = k2 := by rw [hp]; exact hne
      simp [hdel, hget, hp, hp2, ih, hne]
    · by_cases hq : p.1 = k2 <;> simp [hdel, hget, hp, hq, ih, hne, Ne.symm hne]

theorem foldl_data (rpp : Headers → String → String → Headers × String)
    (uz : String → Except Unit String) (url : String) (r : RemoteResponse)
    (chunks : List String) (st : RunState) :
    (chunks.map ResEvent.data).foldl (stepEvent rpp uz url r) st
      = { st with buf := st.buf ++ chunks } := by
  induction chunks generalizing st with
  | nil => simp
  | cons c t ih => simp [stepEvent, ih]

theorem foldl_writes_length (rpp : Headers → String → String → Headers × String)
    (uz : String → Except Unit String) (url : String) (r : RemoteResponse)
    (evs : List ResEvent) (st : RunState) :
    ((evs.foldl (stepEvent rpp uz url r) st).writes).length
      = st.writes.length + terminalCount evs := by
  induction evs generalizing st with
  | nil => simp [terminalCount]
  | cons e t ih =>
    cases e <;> simp [stepEvent, terminalCount, isTerminalEv, List.filter_cons, ih] <;> omega

/-- C1 (amended): the engine performs exactly one terminal write for each
locally rejected request (400 or Empty-200), and otherwise exactly one write
per terminal upstream event — so exactly one terminal outcome reaches the
client iff exactly one terminal upstream event fires.  The handlers are
unguarded, so zero terminal events yield zero writes and several yield
several. -/
theorem C1_amended_theorem (rp : Headers → String → RequestResult × Headers)
    (rpp : Headers → String → String → Headers × String)
    (uz : String → Except Unit String) (req : ClientRequest) (tr : UpstreamTrace) :
    (engine rp rpp uz req tr).writes.length = expectedWrites rp req tr := by
  by_cases hs : strStartsWith req.url "http"
  · cases hr : (rp req.headers req.url).1 <;> cases tr <;>
      simp [engine, expectedWrites, hs, hr, foldl_writes_length]
  · simp [engine, expectedWrites, hs]

/-- C1 fails as stated: with an upstream trace in which the `aborted` event
fires in addition to `end` (the handlers are unguarded), a single request
produces two terminal writes. -/
theorem C1_counterexample :
    (engine (fun h _ => (RequestResult.Allow, h)) (fun h _ t => (h, t))
      (fun s => Except.ok s)
      { url := "http://example.test/", headers := [], method := "GET", body := "" }
      (UpstreamTrace.withResponse { statusCode := 200, statusMessage := "OK", headers := [] }
        [ResEvent.endE, ResEvent.abortedE])).writes.length = 2 := by decide

/-- C2 (amended): a stream error or abort on an established upstream response
is mapped to its distinct fixed status (500 / 502), but an error on the
upstream request object itself (e.g. a connect failure) has no handler and
escapes: the process crashes and the client gets nothing. -/
theorem C2_amended_theorem (rp : Headers → String → RequestResult × Headers)
    (rpp : Headers → String → String → Headers × String)
    (uz : String → Except Unit String) (req : ClientRequest) (r : RemoteResponse)
    (h1 : strStartsWith req.url "http" = true)
    (h2 : (rp req.headers req.url).1 ≠ RequestResult.Empty) :
    (engine rp rpp uz req (UpstreamTrace.withResponse r [ResEvent.errorE])).writes
        = [read500Write]
    ∧ (engine rp rpp uz req (UpstreamTrace.withResponse r [ResEvent.abortedE])).writes
        = [abort502Write]
    ∧ read500Write.status = 500 ∧ abort502Write.status = 502
    ∧ (engine rp rpp uz req UpstreamTrace.connectError).crashed = true
    ∧ (engine rp rpp uz req UpstreamTrace.connectError).writes = [] := by
  cases hr : (rp req.headers req.url).1 <;>
    first
      | exact absurd hr h2
      | simp [engine, h1, hr, stepEvent, read500Write, abort502Write]

/-- Witness for C2 (amended) at a concrete request and response. -/
theorem C2_witness :
    (engine (fun h _ => (RequestResult.Allow, h)) (fun h _ t => (h, t)) (fun s => Except.ok s)
        { url := "http://example.test/", headers := [], method := "GET", body := "" }
        (UpstreamTrace.withResponse { statusCode := 200, statusMessage := "OK", headers := [] }
          [ResEvent.errorE])).writes = [read500Write]
    ∧ (engine (fun h _ => (RequestResult.Allow, h)) (fun h _ t => (h, t)) (fun s => Except.ok s)
        { url := "http://example.test/", headers := [], method := "GET", body := "" }
        (UpstreamTrace.withResponse { statusCode := 200, statusMessage := "OK", headers := [] }
          [ResEvent.abortedE])).writes = [abort502Write]
    ∧ read500Write.status = 500 ∧ abort502Write.status = 502
    ∧ (engine (fun h _ => (RequestResult.Allow, h)) (fun h _ t => (h, t)) (fun s => Except.ok s)
        { url := "http://example.test/", headers := [], method := "GET", body := "" }
        UpstreamTrace.connectError).crashed = true
    ∧ (engine (fun h _ => (RequestResult.Allow, h)) (fun h _ t => (h, t)) (fun s => Except.ok s)
        { url := "http://example.test/", headers := [], method := "GET", body := "" }
        UpstreamTrace.connectError).writes = [] :=
  C2_amended_theorem _ _ _ _ _ (by decide) (by decide)

/-- C2 fails as stated: an upstream connect failure (an `error` event on the
request object, for which the source registers no listener) escapes the
per-request handler — the process crashes and no client-visible response is
produced. -/
theorem C2_counterexample :
    (engine (fun h _ => (RequestResult.Allow, h)) (fun h _ t => (h, t)) (fun s => Except.ok s)
        { url := "http://unreachable.example/", headers := [], method := "GET", body := "" }
        UpstreamTrace.connectError).crashed = true
    ∧ (engine (fun h _ => (RequestResult.Allow, h)) (fun h _ t => (h, t)) (fun s => Except.ok s)
        { url := "http://unreachable.example/", headers := [], method := "GET", body := "" }
        UpstreamTrace.connectError).writes = [] := by decide

/-- C3: a gzip/deflate-labelled upstream body that decompresses successfully
is finalized — the client body is the response patching provider applied to
the decompressed text, and the client-visible content-encoding is identity. -/
theorem C3_theorem (rp : Headers → String → RequestResult × Headers)
    (rpp : Headers → String → String → Headers × String)
    (uz : String → Except Unit String) (req : ClientRequest) (r : RemoteResponse)
    (chunks : List String) (enc t : String)
    (h1 : strStartsWith req.url "http" = true)
    (h2 : (rp req.headers req.url).1 ≠ RequestResult.Empty)
    (h3 : hget r.headers "content-encoding" = some enc)
    (h4 : enc = "gzip" ∨ enc = "deflate")
    (h5 : uz (String.join chunks) = Except.ok t) :
    (engine rp rpp uz req
        (UpstreamTrace.withResponse r (chunks.map ResEvent.data ++ [ResEvent.endE]))).writes
      = [finalize rpp r req.url t]
    ∧ hget (finalize rpp r req.url t).headers "content-encoding" = some "identity"
    ∧ (finalize rpp r req.url t).body = (rpp r.headers req.url t).2 := by
  refine ⟨?_, ?_, rfl⟩
  · cases hr : (rp req.headers req.url).1 <;>
      first
        | exact absurd hr h2
        | · simp [engine, h1, hr, List.foldl_append, foldl_data, stepEvent, onEnd,
              decodeBody, h3]
            rcases h4 with h4 | h4 <;> simp [h4, h5]
  · simp [finalize, hget_hdel_ne _ "content-length" "content-encoding" (by decide),
      hget_hset_self]

/-- Witness for C3 at a concrete gzip-labelled response. -/
theorem C3_witness :
    (engine (fun h _ => (RequestResult.Allow, h)) (fun h _ t => (h, t)) (fun s => Except.ok s)
        { url := "http://example.test/", headers := [], method := "GET", body := "" }
        (UpstreamTrace.withResponse
          { statusCode := 200, statusMessage := "OK", headers := [("content-encoding", "gzip")] }
          (["<html></html>"].map ResEvent.data ++ [ResEvent.endE]))).writes
      = [finalize (fun h _ t => (h, t))
          { statusCode := 200, statusMessage := "OK", headers := [("content-encoding", "gzip")] }
          "http://example.test/" "<html></html>"]
    ∧ hget (finalize (fun h _ t => (h, t))
          { statusCode := 200, statusMessage := "OK", headers := [("content-encoding", "gzip")] }
          "http://example.test/" "<html></html>").headers "content-encoding" = some "identity"
    ∧ (finalize (fun h _ t => (h, t))
          { statusCode := 200, statusMessage := "OK", headers := [("content-encoding", "gzip")] }
          "http://example.test/" "<html></html>").body
      = ((fun (h : Headers) (_ : String) (t : String) => (h, t))
          [("content-encoding", "gzip")] "http://example.test/" "<html></html>").2 :=
  C3_theorem _ _ _ _ _ ["<html></html>"] "gzip" "<html></html>"
    (by decide) (by decide) (by decide) (Or.inl rfl) rfl

/-- C4 (amended): the upstream transport is https exactly when the parsed
protocol is "https:", and the (hook-mutated) client headers are forwarded
with accept-encoding forced — but the upstream request always carries method
GET (the client method is never read) and an empty body (the client body is
never piped; `request.end()` is called immediately). -/
theorem C4_amended_theorem (rp : Headers → String → RequestResult × Headers)
    (rpp : Headers → String → String → Headers × String)
    (uz : String → Except Unit String) (req : ClientRequest) (tr : UpstreamTrace)
    (h1 : strStartsWith req.url "http" = true)
    (h2 : (rp req.headers req.url).1 ≠ RequestResult.Empty) :
    (engine rp rpp uz req tr).upstreamReq =
      some { secure := urlParseProtocol req.url == some "https:", url := req.url,
             method := "GET",
             headers := hset (rp req.headers req.url).2 "accept-encoding" "gzip, deflate",
             body := "" } := by
  cases hr : (rp req.headers req.url).1 <;>
    first
      | exact absurd hr h2
      | cases tr <;> simp [engine, h1, hr]

/-- Witness for C4 (amended) at a concrete https request. -/
theorem C4_witness :
    (engine (fun h _ => (RequestResult.Allow, h)) (fun h _ t => (h, t)) (fun s => Except.ok s)
        { url := "https://example.test/", headers := [], method := "GET", body := "" }
        (UpstreamTrace.noResponse false)).upstreamReq =
      some { secure := urlParseProtocol "https://example.test/" == some "https:",
             url := "https://example.test/", method := "GET",
             headers := hset [] "accept-encoding" "gzip, deflate", body := "" } :=
  C4_amended_theorem _ _ _ _ _ (by decide) (by decide)

/-- C4 fails as stated: a POST request with a body is forwarded upstream as a
GET with an empty body — neither the client method nor the client body is
sent. -/
theorem C4_counterexample :
    (engine (fun h _ => (RequestResult.Allow, h)) (fun h _ t => (h, t)) (fun s => Except.ok s)
        { url := "http://example.test/", headers := [], method := "POST", body := "hello" }
        (UpstreamTrace.noResponse false)).upstreamReq =
      some { secure := false, url := "http://example.test/", method := "GET",
             headers := [("accept-encoding", "gzip, deflate")], body := "" }
    ∧ (engine (fun h _ => (RequestResult.Allow, h)) (fun h _ t => (h, t)) (fun s => Except.ok s)
        { url := "http://example.test/", headers := [], method := "POST", body := "hello" }
        (UpstreamTrace.noResponse false)).upstreamReq.map (fun q => q.method) ≠ some "POST"
    ∧ (engine (fun h _ => (RequestResult.Allow, h)) (fun h _ t => (h, t)) (fun s => Except.ok s)
        { url := "http://example.test/", headers := [], method := "POST", body := "hello" }
        (UpstreamTrace.noResponse false)).upstreamReq.map (fun q => q.body) ≠ some "hello" := by
  refine ⟨by decide, by decide, by decide⟩

/-- C5 (amended): a client disconnect does call `request.abort()` and by
itself produces no client write; but if the cancellation makes the upstream
`aborted` event fire, the engine attempts a full 502 write toward the closed
client connection (the same handler as for a server-side abort) — it is not
an unhandled fault, but it is a write attempt, not a no-op. -/
theorem C5_amended_theorem (rp : Headers → String → RequestResult × Headers)
    (rpp : Headers → String → String → Headers × String)
    (uz : String → Except Unit String) (req : ClientRequest) (r : RemoteResponse)
    (cs : List String)
    (h1 : strStartsWith req.url "http" = true)
    (h2 : (rp req.headers req.url).1 ≠ RequestResult.Empty) :
    (engine rp rpp uz req
        (UpstreamTrace.withResponse r (cs.map ResEvent.data ++ [ResEvent.clientAborted]))).reqAborted
      = true
    ∧ (engine rp rpp uz req
        (UpstreamTrace.withResponse r (cs.map ResEvent.data ++ [ResEvent.clientAborted]))).writes
      = []
    ∧ (engine rp rpp uz req
        (UpstreamTrace.withResponse r
          (cs.map ResEvent.data ++ [ResEvent.clientAborted, ResEvent.abortedE]))).writes
      = [abort502Write]
    ∧ (engine rp rpp uz req
        (UpstreamTrace.withResponse r
          (cs.map ResEvent.data ++ [ResEvent.clientAborted, ResEvent.abortedE]))).crashed
      = false := by
  cases hr : (rp req.headers req.url).1 <;>
    first
      | exact absurd hr h2
      | simp [engine, h1, hr, List.foldl_append, foldl_data, stepEvent]

/-- Witness for C5 (amended) at a concrete request and trace. -/
theorem C5_witness :
    (engine (fun h _ => (RequestResult.Allow, h)) (fun h _ t => (h, t)) (fun s => Except.ok s)
        { url := "http://example.test/", headers := [], method := "GET", body := "" }
        (UpstreamTrace.withResponse { statusCode := 200, statusMessage := "OK", headers := [] }
          (["chunk"].map ResEvent.data ++ [ResEvent.clientAborted]))).reqAborted = true
    ∧ (engine (fun h _ => (RequestResult.Allow, h)) (fun h _ t => (h, t)) (fun s => Except.ok s)
        { url := "http://example.test/", headers := [], method := "GET", body := "" }
        (UpstreamTrace.withResponse { statusCode := 200, statusMessage := "OK", headers := [] }
          (["chunk"].map ResEvent.data ++ [ResEvent.clientAborted]))).writes = []
    ∧ (engine (fun h _ => (RequestResult.Allow, h)) (fun h _ t => (h, t)) (fun s => Except.ok s)
        { url := "http://example.test/", headers := [], method := "GET", body := "" }
        (UpstreamTrace.withResponse { statusCode := 200, statusMessage := "OK", headers := [] }
          (["chunk"].map ResEvent.data ++ [ResEvent.clientAborted, ResEvent.abortedE]))).writes
      = [abort502Write]
    ∧ (engine (fun h _ => (RequestResult.Allow, h)) (fun h _ t => (h, t)) (fun s => Except.ok s)
        { url := "http://example.test/", headers := [], method := "GET", body := "" }
        (UpstreamTrace.withResponse { statusCode := 200, statusMessage := "OK", headers := [] }
          (["chunk"].map ResEvent.data ++ [ResEvent.clientAborted, ResEvent.abortedE]))).crashed
      = false :=
  C5_amended_theorem _ _ _ _ _ ["chunk"] (by decide) (by decide)

/-- C5 fails as stated: after a client disconnect (cancellation performed),
the upstream `aborted` event triggered by that cancellation still performs a
full 502 response write toward the closed client connection. -/
theorem C5_counterexample :
    (engine (fun h _ => (RequestResult.Allow, h)) (fun h _ t => (h, t)) (fun s => Except.ok s)
        { url := "http://example.test/", headers := [], method := "GET", body := "" }
        (UpstreamTrace.withResponse { statusCode := 200, statusMessage := "OK", headers := [] }
          [ResEvent.clientAborted, ResEvent.abortedE])).reqAborted = true
    ∧ (engine (fun h _ => (RequestResult.Allow, h)) (fun h _ t => (h, t)) (fun s => Except.ok s)
        { url := "http://example.test/", headers := [], method := "GET", body := "" }
        (UpstreamTrace.withResponse { statusCode := 200, statusMessage := "OK", headers := [] }
          [ResEvent.clientAborted, ResEvent.abortedE])).writes ≠ [] := by
  refine ⟨by decide, by decide⟩

/-- C6: an upstream abort before end-of-stream yields exactly one fixed 502
response with the given reason phrase, whatever body chunks were buffered —
none of them is written to the client. -/
theorem C6_theorem (rp : Headers → String → RequestResult × Headers)
    (rpp : Headers → String → String → Headers × String)
    (uz : String → Except Unit String) (req : ClientRequest) (r : RemoteResponse)
    (cs : List String)
    (h1 : strStartsWith req.url "http" = true)
    (h2 : (rp req.headers req.url).1 ≠ RequestResult.Empty) :
    (engine rp rpp uz req
        (UpstreamTrace.withResponse r (cs.map ResEvent.data ++ [ResEvent.abortedE]))).writes
      = [abort502Write]
    ∧ abort502Write.status = 502
    ∧ abort502Write.reason = "Broken Pipe / Remote Server Disconnected" := by
  cases hr : (rp req.headers req.url).1 <;>
    first
      | exact absurd hr h2
      | simp [engine, h1, hr, List.foldl_append, foldl_data, stepEvent, abort502Write]

/-- Witness for C6 at a concrete request with a buffered chunk. -/
theorem C6_witness :
    (engine (fun h _ => (RequestResult.Allow, h)) (fun h _ t => (h, t)) (fun s => Except.ok s)
        { url := "http://example.test/", headers := [], method := "GET", body := "" }
        (UpstreamTrace.withResponse { statusCode := 200, statusMessage := "OK", headers := [] }
          (["buffered chunk"].map ResEvent.data ++ [ResEvent.abortedE]))).writes
      = [abort502Write]
    ∧ abort502Write.status = 502
    ∧ abort502Write.reason = "Broken Pipe / Remote Server Disconnected" :=
  C6_theorem _ _ _ _ _ ["buffered chunk"] (by decide) (by decide)

/-- C7 (amended): every request whose target does not start with the literal
"http" gets exactly the fixed 400 response and no upstream request; but the
guard is only this prefix test, so a non-absolute target that happens to
start with "http" is proxied (see the counterexample). -/
theorem C7_amended_theorem (rp : Headers → String → RequestResult × Headers)
    (rpp : Headers → String → String → Headers × String)
    (uz : String → Except Unit String) (req : ClientRequest) (tr : UpstreamTrace)
    (h : strStartsWith req.url "http" = false) :
    (engine rp rpp uz req tr).writes = [bad400Write]
    ∧ (engine rp rpp uz req tr).upstreamReq = none
    ∧ bad400Write.status = 400 ∧ bad400Write.reason = "Bad Request" := by
  simp [engine, h, bad400Write]

/-- Witness for C7 (amended) at a concrete relative target. -/
theorem C7_witness :
    (engine (fun h _ => (RequestResult.Allow, h)) (fun h _ t => (h, t)) (fun s => Except.ok s)
        { url := "/index.html", headers := [], method := "GET", body := "" }
        (UpstreamTrace.noResponse false)).writes = [bad400Write]
    ∧ (engine (fun h _ => (RequestResult.Allow, h)) (fun h _ t => (h, t)) (fun s => Except.ok s)
        { url := "/index.html", headers := [], method := "GET", body := "" }
        (UpstreamTrace.noResponse false)).upstreamReq = none
    ∧ bad400Write.status = 400 ∧ bad400Write.reason = "Bad Request" :=
  C7_amended_theorem _ _ _ _ _ (by decide)

/-- C7 fails as stated: the target "httpgarbage" is not an absolute URL (it
has no scheme), yet the engine does not reject it — it dispatches an
upstream request and writes no 400. -/
theorem C7_counterexample :
    specIsAbsoluteURL "httpgarbage" = false
    ∧ (engine (fun h _ => (RequestResult.Allow, h)) (fun h _ t => (h, t)) (fun s => Except.ok s)
        { url := "httpgarbage", headers := [], method := "GET", body := "" }
        (UpstreamTrace.noResponse false)).writes = []
    ∧ (engine (fun h _ => (RequestResult.Allow, h)) (fun h _ t => (h, t)) (fun s => Except.ok s)
        { url := "httpgarbage", headers := [], method := "GET", body := "" }
        (UpstreamTrace.noResponse false)).upstreamReq ≠ none := by
  refine ⟨by decide, by decide, by decide⟩

/-- C8: the `Empty` policy outcome yields exactly the fixed 200 response —
empty body, text/plain — and no upstream request is dispatched. -/
theorem C8_theorem (rp : Headers → String → RequestResult × Headers)
    (rpp : Headers → String → String → Headers × String)
    (uz : String → Except Unit String) (req : ClientRequest) (tr : UpstreamTrace)
    (h1 : strStartsWith req.url "http" = true)
    (h2 : (rp req.headers req.url).1 = RequestResult.Empty) :
    (engine rp rpp uz req tr).writes = [empty200Write]
    ∧ (engine rp rpp uz req tr).upstreamReq = none
    ∧ empty200Write.status = 200 ∧ empty200Write.reason = "OK"
    ∧ empty200Write.body = ""
    ∧ hget empty200Write.headers "Content-Type" = some "text/plain" := by
  refine ⟨?_, ?_, rfl, rfl, rfl, by decide⟩ <;> simp [engine, h1, h2]

/-- Witness for C8 at a concrete request with an Empty-returning hook. -/
theorem C8_witness :
    (engine (fun h _ => (RequestResult.Empty, h)) (fun h _ t => (h, t)) (fun s => Except.ok s)
        { url := "http://example.test/", headers := [], method := "GET", body := "" }
        (UpstreamTrace.noResponse false)).writes = [empty200Write]
    ∧ (engine (fun h _ => (RequestResult.Empty, h)) (fun h _ t => (h, t)) (fun s => Except.ok s)
        { url := "http://example.test/", headers := [], method := "GET", body := "" }
        (UpstreamTrace.noResponse false)).upstreamReq = none
    ∧ empty200Write.status = 200 ∧ empty200Write.reason = "OK"
    ∧ empty200Write.body = ""
    ∧ hget empty200Write.headers "Content-Type" = some "text/plain" :=
  C8_theorem _ _ _ _ _ (by decide) (by decide)

/-- C9: whatever the response patching provider does to the header mapping,
the finalized client response has content-encoding identity, no
content-length, the upstream status and reason, and every other header
exactly as the provider left it. -/
theorem C9_theorem (rpp : Headers → String → String → Headers × String)
    (r : RemoteResponse) (url t : String) :
    hget (finalize rpp r url t).headers "content-encoding" = some "identity"
    ∧ hget (finalize rpp r url t).headers "content-length" = none
    ∧ (finalize rpp r url t).status = r.statusCode
    ∧ (finalize rpp r url t).reason = r.statusMessage
    ∧ ∀ k, k ≠ "content-encoding" → k ≠ "content-length" →
        hget (finalize rpp r url t).headers k = hget (rpp r.headers url t).1 k := by
  refine ⟨?_, ?_, rfl, rfl, ?_⟩
  · simp [finalize, hget_hdel_ne _ "content-length" "content-encoding" (by decide),
      hget_hset_self]
  · simp [finalize, hget_hdel_self]
  · intro k hk1 hk2
    simp [finalize, hget_hdel_ne _ "content-length" k (Ne.symm hk2),
      hget_hset_ne _ "content-encoding" k _ (Ne.symm hk1)]

/-- Witness for C9: a custom header survives finalization verbatim. -/
theorem C9_witness :
    hget (finalize (fun h _ t => (h, t))
        { statusCode := 200, statusMessage := "OK",
          headers := [("x-served-by", "origin"), ("content-length", "10")] }
        "http://example.test/" "body").headers "x-served-by"
      = hget ((fun (h : Headers) (_ : String) (t : String) => (h, t))
          [("x-served-by", "origin"), ("content-length", "10")] "http://example.test/" "body").1
          "x-served-by" :=
  (C9_theorem _ _ _ _).2.2.2.2 "x-served-by" (by decide) (by decide)

/-- C10: a body labelled gzip and the same body labelled deflate are decoded
by the same routine with the same result — the engine never distinguishes
the two labels: the decode branch is identical, and on a decode failure both
produce the same fixed 500 parse-error response. -/
theorem C10_theorem (uz : String → Except Unit String)
    (rpp : Headers → String → String → Headers × String) (url : String)
    (cs : List String) (r : RemoteResponse) :
    decodeBody uz (some "gzip") (String.join cs) = uz (String.join cs)
    ∧ decodeBody uz (some "gzip") (String.join cs)
        = decodeBody uz (some "deflate") (String.join cs)
    ∧ (uz (String.join cs) = Except.error () →
        onEnd rpp uz url { r with headers := hset r.headers "content-encoding" "gzip" } cs
          = parse500Write
        ∧ onEnd rpp uz url { r with headers := hset r.headers "content-encoding" "deflate" } cs
          = parse500Write) := by
  refine ⟨by simp [decodeBody], by simp [decodeBody], ?_⟩
  intro he
  constructor <;> simp [onEnd, hget_hset_self, decodeBody, he]

/-- Witness for C10: a failing decoder yields the fixed 500 parse error. -/
theorem C10_witness :
    onEnd (fun h _ t => (h, t)) (fun _ => Except.error ()) "http://example.test/"
        { statusCode := 200, statusMessage := "OK",
          headers := hset [] "content-encoding" "gzip" } ["x"] = parse500Write :=
  ((C10_theorem (fun _ => Except.error ()) (fun h _ t => (h, t)) "http://example.test/" ["x"]
      { statusCode := 200, statusMessage := "OK", headers := [] }).2.2 rfl).1

end Violentproxy
